import Mathlib

/-!
Shallow embedding of `@visualization/visualize_fire_risk.py` and proofs of
the specified properties.

The script's pure logic (color classification, the argsort-based descending
sort, the skip test of the grouped chart) is translated into executable Lean
functions; the script's effects (file reads and writes) are modelled as an
explicit event trace, and Python exceptions as `Except` values.  Scores are
modelled as rationals (`ℚ`), covering both the integer scores of the sample
data and arbitrary numeric JSON scores.
-/

namespace FireRisk

/-- A building record, keeping the fields the visualization logic reads:
`building_name`, `fire_risk_score`, and the optional `building_type` key
(`none` models the key being absent from the JSON object). -/
structure Building where
  building_name : String
  fire_risk_score : ℚ
  building_type : Option String
deriving DecidableEq, Repr

/-- `get_color_mapping` (lines 13-20): green below 33, amber below 66,
red otherwise. -/
def get_color_mapping (score : ℚ) : String :=
  if score < 33 then "#10B981"
  else if score < 66 then "#F59E0B"
  else "#EF4444"

/-- Line 25: `building_names = [b['building_name'] for b in buildings_data]`. -/
def building_names (d : List Building) : List String :=
  d.map (·.building_name)

/-- Line 26: `risk_scores = [b['fire_risk_score'] for b in buildings_data]`. -/
def risk_scores (d : List Building) : List ℚ :=
  d.map (·.fire_risk_score)

/-- Ordering of positions of `scores` by the score stored there (out-of-range
positions never arise: the sort runs over `range scores.length`). -/
def idxLe (scores : List ℚ) (i j : ℕ) : Prop :=
  scores.getD i 0 ≤ scores.getD j 0

instance (scores : List ℚ) : DecidableRel (idxLe scores) := fun _ _ =>
  inferInstanceAs (Decidable (_ ≤ _))

instance (scores : List ℚ) : IsTotal ℕ (idxLe scores) :=
  ⟨fun _ _ => le_total _ _⟩

instance (scores : List ℚ) : IsTrans ℕ (idxLe scores) :=
  ⟨fun _ _ _ => le_trans⟩

/-- Line 29: `sorted_indices = np.argsort(risk_scores)[::-1]` — the indices
of the score list sorted ascending by score, then reversed so the scores run
in descending order.  (`np.argsort`'s tie order is an implementation detail
of its sorting kind; a stable comparison sort models it.) -/
def sorted_indices (scores : List ℚ) : List ℕ :=
  (List.insertionSort (idxLe scores) (List.range scores.length)).reverse

/-- Line 30: `building_names = [building_names[i] for i in sorted_indices]`. -/
def sorted_building_names (d : List Building) : List String :=
  (sorted_indices (risk_scores d)).map (fun i => (building_names d).getD i "")

/-- Line 31: `risk_scores = [risk_scores[i] for i in sorted_indices]`. -/
def sorted_risk_scores (d : List Building) : List ℚ :=
  (sorted_indices (risk_scores d)).map (fun i => (risk_scores d).getD i 0)

/-- The (name, score) pairing after the sort of `create_risk_score_chart`:
the same index permutation is applied to both lists, so pairing them up by
position describes the plotted bars. -/
def sorted_pairs (d : List Building) : List (String × ℚ) :=
  (sorted_building_names d).zip (sorted_risk_scores d)

/-- Line 34: `bar_colors = [get_color_mapping(score) for score in risk_scores]`. -/
def bar_colors (d : List Building) : List String :=
  (sorted_risk_scores d).map get_color_mapping

/-- Lines 97-101: for a given building type the grouped chart plots
`df[df['building_type'] == building_type]['fire_risk_score']` — the scores of
that type's records in dataframe row order, i.e. in input order; no sort is
applied in `create_building_type_chart`. -/
def grouped_scores (d : List Building) (t : String) : List ℚ :=
  (d.filter (fun b => b.building_type == some t)).map (·.fire_risk_score)

/-- A file-system effect of the script. -/
inductive FSEvent where
  | read (path : String)
  | write (path : String)
deriving DecidableEq, Repr

/-- A Python exception, as far as the control flow of `main` observes it. -/
inductive PyErr where
  | indexError
  | jsonDecodeError
  | libError
deriving DecidableEq, Repr

/-- `create_risk_score_chart` (lines 22-72): renders the overall chart;
its only file-system effect is `plt.savefig(output_file)` (line 69) with the
default `output_file='risk_scores_chart.png'`. -/
def create_risk_score_chart_events (_d : List Building) : List FSEvent :=
  [.write "risk_scores_chart.png"]

/-- `create_building_type_chart` (lines 74-125) as a trace of file-system
events.  Reading `buildings_data[0]` (line 77) raises `IndexError` on an
empty list; if the first record has no `'building_type'` key the function
prints a notice and returns `None` without writing anything (lines 77-79);
otherwise it renders the grouped chart — `libErr` models a plotting-library
exception raised during rendering (`none` when rendering succeeds) — and
saves `risk_scores_by_type_chart.png` (line 122). -/
def create_building_type_chart (d : List Building) (libErr : Option PyErr) :
    Except PyErr (Option (List FSEvent)) :=
  match d with
  | [] => .error .indexError
  | b :: _ =>
    if b.building_type = none then .ok none
    else
      match libErr with
      | some e => .error e
      | none => .ok (some [.write "risk_scores_by_type_chart.png"])

/-- The sample records `main` writes to `buildings.json` (lines 134-276)
when that file does not exist, restricted to the fields the charts read. -/
def sample_data : List Building :=
  [⟨"Tercero Residence Halls", 72, some "Residential"⟩,
   ⟨"Segundo Residence Halls", 65, some "Residential"⟩,
   ⟨"Sciences Laboratory Building", 45, some "Academic"⟩,
   ⟨"Memorial Union", 31, some "Administrative"⟩,
   ⟨"Shields Library", 28, some "Academic"⟩,
   ⟨"Meyer Hall", 52, some "Research"⟩]

/-- `main` (lines 127-293) as a trace of file-system events paired with the
script's outcome.  `inputExists` says whether `buildings.json` exists when
the run starts: when it does, `loadRes` is the result of `json.load` on it
(`.error` models a read/parse exception); when it does not, `main` first
writes the sample file and the subsequent load yields exactly
`sample_data`.  `overallErr` models a plotting-library exception while
rendering the overall chart, `groupedLibErr` one while rendering the
grouped chart.  Only the call to `create_building_type_chart` sits inside a
`try/except` (lines 285-288), so only its exception is swallowed; every
other exception aborts the run. -/
def mainRun (inputExists : Bool) (loadRes : Except PyErr (List Building))
    (overallErr groupedLibErr : Option PyErr) :
    List FSEvent × Except PyErr Unit :=
  let pre : List FSEvent := if inputExists then [] else [.write "buildings.json"]
  let data : Except PyErr (List Building) :=
    if inputExists then loadRes else .ok sample_data
  match data with
  | .error e => (pre ++ [.read "buildings.json"], .error e)
  | .ok d =>
    match overallErr with
    | some e => (pre ++ [.read "buildings.json"], .error e)
    | none =>
      let ev2 : List FSEvent :=
        match create_building_type_chart d groupedLibErr with
        | .error _ => []
        | .ok none => []
        | .ok (some evs) => evs
      (pre ++ [.read "buildings.json"] ++ create_risk_score_chart_events d ++ ev2,
       .ok ())

end FireRisk

/-- C1: for every numeric score, `get_color_mapping` returns green
(`#10B981`) if score < 33, amber (`#F59E0B`) if 33 ≤ score < 66, and red
(`#EF4444`) if score ≥ 66; in particular a score of exactly 33 is amber and
a score of exactly 66 is red. -/
theorem C1_color_thresholds (score : ℚ) :
    (score < 33 → FireRisk.get_color_mapping score = "#10B981") ∧
    (33 ≤ score → score < 66 → FireRisk.get_color_mapping score = "#F59E0B") ∧
    (66 ≤ score → FireRisk.get_color_mapping score = "#EF4444") ∧
    FireRisk.get_color_mapping 33 = "#F59E0B" ∧
    FireRisk.get_color_mapping 66 = "#EF4444" := by
  unfold FireRisk.get_color_mapping
  refine ⟨fun h => by simp [h], fun h1 h2 => ?_, fun h => ?_, by norm_num, by norm_num⟩
  · rw [if_neg (by linarith), if_pos h2]
  · rw [if_neg (by linarith), if_neg (by linarith)]

/-- Witness for C1 at concrete scores 10, 40 and 80. -/
theorem C1_color_thresholds_witness :
    FireRisk.get_color_mapping 10 = "#10B981" ∧
    FireRisk.get_color_mapping 40 = "#F59E0B" ∧
    FireRisk.get_color_mapping 80 = "#EF4444" :=
  ⟨(C1_color_thresholds 10).1 (by norm_num),
   (C1_color_thresholds 40).2.1 (by norm_num) (by norm_num),
   (C1_color_thresholds 80).2.2.1 (by norm_num)⟩

/-- C8: `get_color_mapping` is total over all numeric scores, including
scores below 0 and above 100: every score lands in exactly one of the three
branches and the result is always one of the three hex strings. -/
theorem C8_color_total (score : ℚ) :
    (FireRisk.get_color_mapping score = "#10B981" ∨
     FireRisk.get_color_mapping score = "#F59E0B" ∨
     FireRisk.get_color_mapping score = "#EF4444") ∧
    (FireRisk.get_color_mapping score = "#10B981" ↔ score < 33) ∧
    (FireRisk.get_color_mapping score = "#F59E0B" ↔ 33 ≤ score ∧ score < 66) ∧
    (FireRisk.get_color_mapping score = "#EF4444" ↔ 66 ≤ score) := by
  unfold FireRisk.get_color_mapping
  split_ifs with h1 h2
  · exact ⟨Or.inl rfl,
      ⟨fun _ => h1, fun _ => rfl⟩,
      ⟨fun h => absurd h (by decide), fun h => absurd h1 (by linarith [h.1])⟩,
      ⟨fun h => absurd h (by decide), fun h => absurd h1 (by linarith)⟩⟩
  · exact ⟨Or.inr (Or.inl rfl),
      ⟨fun h => absurd h (by decide), fun h => absurd h h1⟩,
      ⟨fun _ => ⟨by linarith, h2⟩, fun _ => rfl⟩,
      ⟨fun h => absurd h (by decide), fun h => absurd h2 (by linarith)⟩⟩
  · exact ⟨Or.inr (Or.inr rfl),
      ⟨fun h => absurd h (by decide), fun h => absurd h h1⟩,
      ⟨fun h => absurd h (by decide), fun h => absurd h.2 h2⟩,
      ⟨fun _ => by linarith, fun _ => rfl⟩⟩

/-- The index list produced by the argsort model is a permutation of the
positions of the score list. -/
theorem sorted_indices_perm (scores : List ℚ) :
    List.Perm (FireRisk.sorted_indices scores) (List.range scores.length) :=
  (List.reverse_perm _).trans (List.perm_insertionSort _ _)

/-- Reading the name and score lists back at positions `0, 1, …, n-1`
reproduces the (name, score) pairs of the input records in order. -/
theorem range_map_getD_eq (d : List FireRisk.Building) :
    (List.range d.length).map
      (fun i => ((FireRisk.building_names d).getD i "",
                 (FireRisk.risk_scores d).getD i 0)) =
    d.map (fun b => (b.building_name, b.fire_risk_score)) := by
  induction d with
  | nil => simp
  | cons b t ih =>
    rw [List.length_cons, List.range_succ_eq_map, List.map_cons, List.map_map]
    refine congrArg₂ List.cons (by simp [FireRisk.building_names, FireRisk.risk_scores]) ?_
    rw [← ih]
    refine List.map_congr_left (fun i _ => ?_)
    simp [FireRisk.building_names, FireRisk.risk_scores, Function.comp]

/-- C9 (multiset preservation): the sorting step applies one index
permutation to both `building_names` and `risk_scores`, so the multiset of
(name, score) pairs after sorting equals the multiset extracted from the
input records. -/
theorem C9_sort_is_permutation (d : List FireRisk.Building) :
    (↑(FireRisk.sorted_pairs d) : Multiset (String × ℚ)) =
      ↑(d.map (fun b => (b.building_name, b.fire_risk_score))) := by
  apply Multiset.coe_eq_coe.mpr
  have h1 : FireRisk.sorted_pairs d =
      (FireRisk.sorted_indices (FireRisk.risk_scores d)).map
        (fun i => ((FireRisk.building_names d).getD i "",
                   (FireRisk.risk_scores d).getD i 0)) := by
    unfold FireRisk.sorted_pairs FireRisk.sorted_building_names FireRisk.sorted_risk_scores
    exact List.zip_map' _ _ _
  have hlen : (FireRisk.risk_scores d).length = d.length := List.length_map _ _
  rw [h1, ← range_map_getD_eq d, ← hlen]
  exact List.Perm.map _ (sorted_indices_perm _)

/-- C2 (amended): in the overall chart of `create_risk_score_chart` the
plotted risk scores are non-increasing from left to right. -/
theorem C2_overall_chart_sorted_descending (d : List FireRisk.Building) :
    List.Sorted (fun a b : ℚ => b ≤ a) (FireRisk.sorted_risk_scores d) := by
  unfold FireRisk.sorted_risk_scores FireRisk.sorted_indices
  rw [List.map_reverse, List.Sorted, List.pairwise_reverse, List.pairwise_map]
  exact List.sorted_insertionSort (FireRisk.idxLe (FireRisk.risk_scores d)) _

/-- Concrete input used to refute the grouped-chart half of C2 and to
witness other properties: two records of the same type with increasing
scores. -/
def C2cexData : List FireRisk.Building :=
  [⟨"A", 10, some "T"⟩, ⟨"B", 50, some "T"⟩]

/-- C2 counterexample: `create_building_type_chart` applies no sort, so for
the input `[("A", 10, type "T"), ("B", 50, type "T")]` the grouped chart
plots the type-"T" scores as `[10, 50]`, which is not non-increasing. -/
theorem C2_grouped_chart_not_sorted :
    FireRisk.grouped_scores C2cexData "T" = [10, 50] ∧
    ¬ List.Sorted (fun a b : ℚ => b ≤ a) (FireRisk.grouped_scores C2cexData "T") := by
  constructor
  · rfl
  · intro h
    rw [show FireRisk.grouped_scores C2cexData "T" = [10, 50] from rfl] at h
    have h50 : (50 : ℚ) ≤ 10 := List.rel_of_sorted_cons h 50 (by simp)
    norm_num at h50

/-- C7: the color classifier and the descending sort are deterministic, pure
functions of their arguments: two runs on equal inputs give equal outputs. -/
theorem C7_pure_functions (s₁ s₂ : ℚ) (d₁ d₂ : List FireRisk.Building)
    (hs : s₁ = s₂) (hd : d₁ = d₂) :
    FireRisk.get_color_mapping s₁ = FireRisk.get_color_mapping s₂ ∧
    FireRisk.sorted_pairs d₁ = FireRisk.sorted_pairs d₂ :=
  ⟨hs ▸ rfl, hd ▸ rfl⟩

/-- Witness for C7: two runs on the score 50 and on the two-record example
input agree. -/
theorem C7_pure_functions_witness :
    FireRisk.get_color_mapping 50 = FireRisk.get_color_mapping 50 ∧
    FireRisk.sorted_pairs C2cexData = FireRisk.sorted_pairs C2cexData :=
  C7_pure_functions 50 50 C2cexData C2cexData rfl rfl

/-- Skip test of the grouped chart: on a non-empty input it returns `None`
exactly when the first record has no `'building_type'` key. -/
theorem create_building_type_chart_skip_iff (b : FireRisk.Building)
    (rest : List FireRisk.Building) (ge : Option FireRisk.PyErr) :
    FireRisk.create_building_type_chart (b :: rest) ge = .ok none ↔
      b.building_type = none := by
  rcases hb : b.building_type with _ | t
  · simp [FireRisk.create_building_type_chart, hb]
  · cases ge <;> simp [FireRisk.create_building_type_chart, hb]

/-- C10: `create_building_type_chart` decides whether to skip solely from
the first record: it returns `None` iff `'building_type'` is absent from
`buildings_data[0]` (so the decision is unchanged by whatever the later
records contain, and later records missing the field do not cause a skip),
and on an empty input list it raises an `IndexError` rather than skipping. -/
theorem C10_skip_decided_by_first_record (b : FireRisk.Building)
    (rest rest2 : List FireRisk.Building) (ge : Option FireRisk.PyErr) :
    FireRisk.create_building_type_chart [] ge = .error .indexError ∧
    (FireRisk.create_building_type_chart (b :: rest) ge = .ok none ↔
      b.building_type = none) ∧
    (FireRisk.create_building_type_chart (b :: rest) ge = .ok none ↔
      FireRisk.create_building_type_chart (b :: rest2) ge = .ok none) :=
  ⟨rfl, create_building_type_chart_skip_iff b rest ge,
   (create_building_type_chart_skip_iff b rest ge).trans
     (create_building_type_chart_skip_iff b rest2 ge).symm⟩

/-- C4: the only exception handler in `main` wraps the call to
`create_building_type_chart`: a load failure aborts the run with that
error, a failure while rendering the overall chart aborts the run with that
error, but whatever `create_building_type_chart` does — including raising —
the run still completes normally. -/
theorem C4_exception_handling (e : FireRisk.PyErr)
    (d : List FireRisk.Building) (oe ge : Option FireRisk.PyErr) :
    (FireRisk.mainRun true (.error e) oe ge).2 = .error e ∧
    (FireRisk.mainRun true (.ok d) (some e) ge).2 = .error e ∧
    (FireRisk.mainRun true (.ok d) none ge).2 = .ok () :=
  ⟨rfl, rfl, rfl⟩

/-- The non-empty single-record input without a `'building_type'` key used
against C3, and to instantiate C5 and C6. -/
def noTypeData : List FireRisk.Building := [⟨"A", 50, none⟩]

/-- C3 counterexample: on the non-empty input `[("A", 50)]` whose record
has no `'building_type'` key, the run completes but writes only
`risk_scores_chart.png`; `risk_scores_by_type_chart.png` is never
created. -/
theorem C3_counterexample :
    FireRisk.mainRun true (.ok noTypeData) none none =
      ([.read "buildings.json", .write "risk_scores_chart.png"], .ok ()) ∧
    FireRisk.FSEvent.write "risk_scores_by_type_chart.png" ∉
      (FireRisk.mainRun true (.ok noTypeData) none none).1 := by
  refine ⟨rfl, ?_⟩
  intro h
  simp [FireRisk.mainRun, FireRisk.create_building_type_chart, noTypeData,
    FireRisk.create_risk_score_chart_events] at h

/-- C3 (amended): when the input file exists, parses to a non-empty record
list whose first record has a `'building_type'` key, and no library error
occurs, the run writes exactly the two chart images (after reading the
input) and completes. -/
theorem C3_two_files_when_type_present (b : FireRisk.Building)
    (rest : List FireRisk.Building) (t : String)
    (h : b.building_type = some t) :
    (FireRisk.mainRun true (.ok (b :: rest)) none none).1 =
      [.read "buildings.json", .write "risk_scores_chart.png",
       .write "risk_scores_by_type_chart.png"] ∧
    (FireRisk.mainRun true (.ok (b :: rest)) none none).2 = .ok () := by
  unfold FireRisk.mainRun
  simp [FireRisk.create_building_type_chart, h,
    FireRisk.create_risk_score_chart_events]

/-- A record carrying a `'building_type'` key, for instantiating C3. -/
def typedBuilding : FireRisk.Building := ⟨"A", 50, some "T"⟩

/-- Witness for the amended C3 at the single typed record. -/
theorem C3_two_files_witness :
    typedBuilding.building_type = some "T" ∧
    ((FireRisk.mainRun true (.ok [typedBuilding]) none none).1 =
      [.read "buildings.json", .write "risk_scores_chart.png",
       .write "risk_scores_by_type_chart.png"] ∧
     (FireRisk.mainRun true (.ok [typedBuilding]) none none).2 = .ok ()) :=
  ⟨rfl, C3_two_files_when_type_present typedBuilding [] "T" rfl⟩

/-- C5 counterexample: when `buildings.json` does not exist, `main` writes
it (with the sample data) before charting — a file-system write that is
neither of the two chart PNGs. -/
theorem C5_counterexample :
    (FireRisk.mainRun false (.ok []) none none).1 =
      [.write "buildings.json", .read "buildings.json",
       .write "risk_scores_chart.png", .write "risk_scores_by_type_chart.png"] ∧
    FireRisk.FSEvent.write "buildings.json" ∈
      (FireRisk.mainRun false (.ok []) none none).1 ∧
    ("buildings.json" ≠ "risk_scores_chart.png" ∧
     "buildings.json" ≠ "risk_scores_by_type_chart.png") := by
  refine ⟨rfl, ?_, by decide, by decide⟩
  rw [show (FireRisk.mainRun false (.ok []) none none).1 =
      [.write "buildings.json", .read "buildings.json",
       .write "risk_scores_chart.png", .write "risk_scores_by_type_chart.png"] from rfl]
  exact List.mem_cons_self _ _

/-- C5 (amended): when the input file already exists, every file-system
effect of the run is the read of `buildings.json` or a write of one of the
two chart PNGs. -/
theorem C5_effects_when_input_exists (lr : Except FireRisk.PyErr (List FireRisk.Building))
    (oe ge : Option FireRisk.PyErr) (ev : FireRisk.FSEvent)
    (h : ev ∈ (FireRisk.mainRun true lr oe ge).1) :
    ev = .read "buildings.json" ∨ ev = .write "risk_scores_chart.png" ∨
      ev = .write "risk_scores_by_type_chart.png" := by
  cases lr with
  | error e => simp [FireRisk.mainRun] at h; simp [h]
  | ok d =>
    cases oe with
    | some e => simp [FireRisk.mainRun] at h; simp [h]
    | none =>
      cases d with
      | nil =>
        simp [FireRisk.mainRun, FireRisk.create_building_type_chart,
          FireRisk.create_risk_score_chart_events] at h
        rcases h with h | h <;> simp [h]
      | cons b rest =>
        rcases hb : b.building_type with _ | t
        · simp [FireRisk.mainRun, FireRisk.create_building_type_chart, hb,
            FireRisk.create_risk_score_chart_events] at h
          rcases h with h | h <;> simp [h]
        · cases ge <;>
            simp [FireRisk.mainRun, FireRisk.create_building_type_chart, hb,
              FireRisk.create_risk_score_chart_events] at h <;>
            rcases h with h | h <;> simp [h]

/-- Witness for the amended C5: in a run on an existing empty-array input,
the read of `buildings.json` is an effect and is classified. -/
theorem C5_effects_witness :
    FireRisk.FSEvent.read "buildings.json" ∈
      (FireRisk.mainRun true (.ok []) none none).1 ∧
    (FireRisk.FSEvent.read "buildings.json" = .read "buildings.json" ∨
     FireRisk.FSEvent.read "buildings.json" = .write "risk_scores_chart.png" ∨
     FireRisk.FSEvent.read "buildings.json" = .write "risk_scores_by_type_chart.png") :=
  ⟨by decide, C5_effects_when_input_exists (.ok []) none none _ (by decide)⟩

/-- C6: when no input record carries a `'building_type'` key, the grouped
chart is skipped — `create_building_type_chart` returns `None` and writes
nothing — while the run still writes the overall risk-score chart and
completes normally. -/
theorem C6_missing_type_skips_grouped_chart (b : FireRisk.Building)
    (rest : List FireRisk.Building) (ge : Option FireRisk.PyErr)
    (h : ∀ x ∈ b :: rest, x.building_type = none) :
    FireRisk.create_building_type_chart (b :: rest) ge = .ok none ∧
    (FireRisk.mainRun true (.ok (b :: rest)) none ge).1 =
      [.read "buildings.json", .write "risk_scores_chart.png"] ∧
    (FireRisk.mainRun true (.ok (b :: rest)) none ge).2 = .ok () := by
  have hb : b.building_type = none := h b (List.mem_cons_self _ _)
  refine ⟨(create_building_type_chart_skip_iff b rest ge).mpr hb, ?_, rfl⟩
  unfold FireRisk.mainRun
  simp [FireRisk.create_building_type_chart, hb,
    FireRisk.create_risk_score_chart_events]

/-- Witness for C6 at the single untyped record. -/
theorem C6_missing_type_witness :
    (∀ x ∈ noTypeData, x.building_type = none) ∧
    (FireRisk.create_building_type_chart noTypeData none = .ok none ∧
     (FireRisk.mainRun true (.ok noTypeData) none none).1 =
       [.read "buildings.json", .write "risk_scores_chart.png"] ∧
     (FireRisk.mainRun true (.ok noTypeData) none none).2 = .ok ()) :=
  ⟨by decide, C6_missing_type_skips_grouped_chart ⟨"A", 50, none⟩ [] none (by decide)⟩
